import Mathlib

/-!
Verification development for the Bali Exception property-scraping pipeline.

The definitions below are a shallow embedding of the Python source:

* `app/scrapers/extractors/bali_for_rent_extractor.py` — field parsing
  (`_extract_number`), post-processing (`_fill_missing_fields`,
  `_detect_pool_info`, `_estimate_lease_expiry_year`), description
  extraction, and the height-measuring scroll loop (`_scroll_to_bottom`);
* `app/scrapers/extractors/bali_for_sale_extractor.py` — description
  extraction for the for-sale category;
* `app/scrapers/baliExceptionScraper.py` — error ledger and statistics
  (`_add_error`, `_update_stats`, `get_scraping_summary`), the discovery
  page loop of `scrape_all_urls`, the retrying detail scraper
  `scrape_property_details`, and the fixed-count scroll helper
  `_scroll_to_trigger_loading`;
* `app/api/routes/bali_exception.py` — the `/scrape` request handler and
  its category validation.

Browser and network effects are modelled by explicit oracles (per-attempt
extraction outcomes, per-page link lists, measured document heights);
everything else is translated directly from the source.
-/

namespace Scraping

/-! ## Python string primitives -/

/-- ASCII lower-casing of one character; models Python `str.lower` on the
ASCII range (all keywords scanned by the code are ASCII). -/
def asciiLower (c : Char) : Char :=
  if 'A' ≤ c ∧ c ≤ 'Z' then Char.ofNat (c.toNat + 32) else c

/-- ASCII upper-casing of one character. -/
def asciiUpper (c : Char) : Char :=
  if 'a' ≤ c ∧ c ≤ 'z' then Char.ofNat (c.toNat - 32) else c

def isAsciiAlpha (c : Char) : Bool :=
  ('a' ≤ c && c ≤ 'z') || ('A' ≤ c && c ≤ 'Z')

/-- Python `s.lower()` (ASCII fragment). -/
def lowerStr (s : String) : String := String.mk (s.data.map asciiLower)

/-- Does the character list start with the given pattern? -/
def beginsWith : List Char → List Char → Bool
  | _, [] => true
  | [], _ :: _ => false
  | a :: as, b :: bs => a == b && beginsWith as bs

/-- Substring occurrence on character lists; models Python `pat in s`. -/
def containsChars (s pat : List Char) : Bool :=
  match s with
  | [] => pat.isEmpty
  | _ :: as => beginsWith s pat || containsChars as pat

/-- Python `pat in s` on strings. -/
def strContains (s pat : String) : Bool := containsChars s.data pat.data

/-- Python `s.startswith(pat)`. -/
def strStartsWith (s pat : String) : Bool := beginsWith s.data pat.data

/-- Python `str.title` on the ASCII range: the first alphabetic character of
each run is upper-cased, the rest lower-cased. -/
def pyTitleChars : Bool → List Char → List Char
  | _, [] => []
  | prevAlpha, c :: cs =>
    (if isAsciiAlpha c then (if prevAlpha then asciiLower c else asciiUpper c) else c)
      :: pyTitleChars (isAsciiAlpha c) cs

def pyTitle (s : String) : String := String.mk (pyTitleChars false s.data)

/-- Python `s.strip()`: drop surrounding whitespace. -/
def pyStripChars (l : List Char) : List Char :=
  ((l.dropWhile Char.isWhitespace).reverse.dropWhile Char.isWhitespace).reverse

def pyStrip (s : String) : String := String.mk (pyStripChars s.data)

/-- Whitespace-delimited words of a character list (empty tokens dropped),
models Python `s.split()` with no separator argument. -/
def wordsChars : List Char → List Char → List (List Char)
  | acc, [] => if acc.isEmpty then [] else [acc.reverse]
  | acc, c :: cs =>
    if c.isWhitespace then
      if acc.isEmpty then wordsChars [] cs else acc.reverse :: wordsChars [] cs
    else wordsChars (c :: acc) cs

def pySplit (s : String) : List String := (wordsChars [] s.data).map String.mk

/-- Python `sep.join(parts)`. -/
def joinSep (sep : String) : List String → String
  | [] => ""
  | [x] => x
  | x :: xs => x ++ sep ++ joinSep sep xs

/-! ## Numbers extracted from raw feature strings -/

/-- A Python number as produced by `_extract_number`: an `int` or a `float`
(the latter modelled as an exact rational). -/
inductive PyNum where
  | int (n : Int)
  | float (q : ℚ)
deriving DecidableEq, Repr

/-- Python `x == 0` on a number (`0 == 0.0` holds in Python). -/
def pyZero : PyNum → Bool
  | .int n => n == 0
  | .float q => q == 0

/-- Python `int(x)` on a number: floats truncate toward zero. -/
def pyIntOfNum : PyNum → Int
  | .int n => n
  | .float q => Int.tdiv q.num (q.den : Int)

def isDigitChar (c : Char) : Bool := '0' ≤ c && c ≤ '9'

/-- Split off the leading run of decimal digits. -/
def takeDigits : List Char → List Char × List Char
  | [] => ([], [])
  | c :: cs =>
    if isDigitChar c then
      let (d, r) := takeDigits cs
      (c :: d, r)
    else ([], c :: cs)

/-- The substring matched by the regex `\d+(\.\d+)?` anchored at a digit:
the maximal digit run, extended by a fractional part only when a dot is
directly followed by a digit. -/
def matchNumberAt (l : List Char) : List Char :=
  let (d, r) := takeDigits l
  match r with
  | '.' :: rest =>
    let (d2, _) := takeDigits rest
    if d2.isEmpty then d else d ++ '.' :: d2
  | _ => d

/-- `re.search` for `\d+(\.\d+)?`: the first match in the list, if any. -/
def searchNumber : List Char → Option (List Char)
  | [] => none
  | c :: cs => if isDigitChar c then some (matchNumberAt (c :: cs)) else searchNumber cs

def digitsToNat (l : List Char) : Nat :=
  l.foldl (fun acc c => 10 * acc + (c.toNat - 48)) 0

/-- `float(m)` vs `int(m)` on a matched numeral: a float exactly when the
match contains a decimal point (`'.' in match.group()`). -/
def numOfMatch (m : List Char) : PyNum :=
  if m.contains '.' then
    let ip := m.takeWhile isDigitChar
    let fp := (m.dropWhile (fun c => c ≠ '.')).drop 1
    .float ((digitsToNat ip : ℚ) + (digitsToNat fp : ℚ) / (10 : ℚ) ^ fp.length)
  else .int (digitsToNat m)

/-- `BaliExceptionForRentExtractor._extract_number` (source lines 311-318):
falsy input gives `0`; otherwise commas are removed and the first number in
the string is taken, an integer unless a decimal point is present. -/
def extract_number (value : String) : PyNum :=
  if value = "" then .int 0
  else
    match searchNumber (value.data.filter (fun c => c ≠ ',')) with
    | some m => numOfMatch m
    | none => .int 0

/-! ## The property record -/

/-- The property dict built by
`BaliExceptionForRentExtractor.extract_property_details` (source lines
155-187), restricted to the fields read or written by the extraction and
post-processing code under verification. -/
structure PropData where
  url : String
  title : String
  description : String
  price_usd : PyNum
  price_idr : PyNum
  location : String
  type : String
  listing_date : String
  status : String
  bedrooms : PyNum
  bathrooms : PyNum
  land_size_sqm : PyNum
  building_size_sqm : PyNum
  lease_duration : PyNum
  lease_expiry_year : PyNum
  year_built : PyNum
  listing_status : String
  amenities : List String
  pool : Bool
  pool_type : String
  pool_size : PyNum
  furnish : String
  key_information : List String
  key_features : List String
  features : List (String × String)
  property_ID : String
deriving DecidableEq, Repr

/-- The default-initialized record created when a detail-page visit begins
(source lines 155-187). -/
def emptyPropData (url : String) : PropData where
  url := url
  title := ""
  description := ""
  price_usd := .int 0
  price_idr := .int 0
  location := ""
  type := ""
  listing_date := ""
  status := ""
  bedrooms := .int 0
  bathrooms := .int 0
  land_size_sqm := .int 0
  building_size_sqm := .int 0
  lease_duration := .int 0
  lease_expiry_year := .int 0
  year_built := .int 0
  listing_status := ""
  amenities := []
  pool := false
  pool_type := ""
  pool_size := .int 0
  furnish := ""
  key_information := []
  key_features := []
  features := []
  property_ID := ""

/-- Python `features.get(key, "")` on the raw label→value map. -/
def dictGet (features : List (String × String)) (key : String) : String :=
  match features.find? (fun p => p.1 == key) with
  | some p => p.2
  | none => ""

/-! ## Post-processing step 1: field back-fill -/

/-- Coercion used for `lease_duration` in `_fill_missing_fields`: the first
whitespace-delimited token of the raw value goes through `_extract_number`;
a blank value gives `0`. -/
def leaseCoerce (value : String) : PyNum :=
  match pySplit value with
  | [] => .int 0
  | w :: _ => extract_number w

/-- `feature_map` iteration for `'Property ID' → 'property_ID'`. -/
def fill_property_ID (d : PropData) : PropData :=
  if d.property_ID = "" then
    { d with property_ID := dictGet d.features "Property ID" } else d

/-- `feature_map` iteration for `'Bedroom' → 'bedrooms'` (numeric). -/
def fill_bedrooms (d : PropData) : PropData :=
  if pyZero d.bedrooms then
    { d with bedrooms := extract_number (dictGet d.features "Bedroom") } else d

/-- `feature_map` iteration for `'Bathroom' → 'bathrooms'` (numeric). -/
def fill_bathrooms (d : PropData) : PropData :=
  if pyZero d.bathrooms then
    { d with bathrooms := extract_number (dictGet d.features "Bathroom") } else d

/-- `feature_map` iteration for `'Land Area' → 'land_size_sqm'` (numeric). -/
def fill_land_size (d : PropData) : PropData :=
  if pyZero d.land_size_sqm then
    { d with land_size_sqm := extract_number (dictGet d.features "Land Area") } else d

/-- `feature_map` iteration for `'Property Size' → 'building_size_sqm'`
(numeric). -/
def fill_building_size (d : PropData) : PropData :=
  if pyZero d.building_size_sqm then
    { d with building_size_sqm := extract_number (dictGet d.features "Property Size") } else d

/-- `feature_map` iteration for `'Furnish' → 'furnish'`. -/
def fill_furnish (d : PropData) : PropData :=
  if d.furnish = "" then
    { d with furnish := dictGet d.features "Furnish" } else d

/-- `feature_map` iteration for `'Leasehold' → 'lease_duration'`: the first
whitespace-delimited token of the raw value goes through `_extract_number`. -/
def fill_lease_duration (d : PropData) : PropData :=
  if pyZero d.lease_duration then
    { d with lease_duration := leaseCoerce (dictGet d.features "Leasehold") } else d

/-- `feature_map` iteration for `'Year Built' → 'year_built'` (numeric). -/
def fill_year_built (d : PropData) : PropData :=
  if pyZero d.year_built then
    { d with year_built := extract_number (dictGet d.features "Year Built") } else d

/-- `feature_map` iteration for `'Status' → 'status'`. -/
def fill_status (d : PropData) : PropData :=
  if d.status = "" then
    { d with status := dictGet d.features "Status" } else d

/-- `feature_map` iteration for `'Type' → 'type'`. -/
def fill_type (d : PropData) : PropData :=
  if d.type = "" then
    { d with type := dictGet d.features "Type" } else d

/-- `feature_map` iteration for `'Area' → 'location'`. -/
def fill_location (d : PropData) : PropData :=
  if d.location = "" then
    { d with location := dictGet d.features "Area" } else d

/-- `feature_map` iteration for `'Label' → 'listing_status'`. -/
def fill_listing_status (d : PropData) : PropData :=
  if d.listing_status = "" then
    { d with listing_status := dictGet d.features "Label" } else d

/-- `feature_map` iteration for `'Pool Size' → 'pool_size'` (numeric). -/
def fill_pool_size (d : PropData) : PropData :=
  if pyZero d.pool_size then
    { d with pool_size := extract_number (dictGet d.features "Pool Size") } else d

/-- `BaliExceptionForRentExtractor._fill_missing_fields` (source lines
320-353): the `feature_map` loop, unrolled in its iteration order. A field
still at its default (`== ''` or `== 0`) is replaced by the coerced value of
the corresponding raw feature label. -/
def fill_missing_fields (d : PropData) : PropData :=
  fill_pool_size (fill_listing_status (fill_location (fill_type (fill_status
    (fill_year_built (fill_lease_duration (fill_furnish (fill_building_size
      (fill_land_size (fill_bathrooms (fill_bedrooms (fill_property_ID d))))))))))))

/-! ## Post-processing step 2: pool inference -/

def pool_keywords : List String :=
  ["pool", "swimming pool", "plunge pool", "lap pool", "infinity pool", "jacuzzi"]

def pool_types : List String :=
  ["private", "shared", "communal", "infinity", "plunge", "lap", "jacuzzi"]

/-- The text sources scanned by `_detect_pool_info`, in the order the code
iterates them: `description` (a string), then the three list-valued
sections. -/
def textSources (d : PropData) : List String :=
  d.description :: (d.key_information ++ d.key_features ++ d.amenities)

/-- The lower-cased space-joined scan text of `_detect_pool_info`. -/
def allText (d : PropData) : String :=
  lowerStr (joinSep " " (textSources d))

/-- `BaliExceptionForRentExtractor._detect_pool_info` (source lines
355-382). -/
def detect_pool_info (d : PropData) : PropData :=
  let t := allText d
  let has_pool := pool_keywords.any (fun kw => strContains t kw)
  let pt := (pool_types.find? (fun ty => strContains t ty)).getD ""
  { d with pool := has_pool, pool_type := if pt = "" then "" else pyTitle pt }

/-! ## Post-processing step 3: lease-expiry estimate -/

/-- The `try` body of `_estimate_lease_expiry_year` as a total function: the
assignment happens only when both numbers are truthy (nonzero). -/
def estimateBody (d : PropData) : PropData :=
  if ¬ (pyZero d.lease_duration = true) ∧ ¬ (pyZero d.year_built = true) then
    { d with lease_expiry_year :=
        PyNum.int (pyIntOfNum d.year_built + pyIntOfNum d.lease_duration) }
  else d

/-- The internal exception guard of `_estimate_lease_expiry_year` (source
lines 384-391): a failure inside the body is caught and leaves
`lease_expiry_year = 0`; the record is still returned. The body is a
parameter so that the guard structure itself can be reasoned about. -/
def estimateStep (body : PropData → Except String PropData) (d : PropData) : PropData :=
  match body d with
  | .ok d2 => d2
  | .error _ => { d with lease_expiry_year := .int 0 }

/-- `BaliExceptionForRentExtractor._estimate_lease_expiry_year` with its
concrete (never-failing) body. -/
def estimate_lease_expiry_year (d : PropData) : PropData :=
  estimateStep (fun d => .ok (estimateBody d)) d

/-! ## The post-processing pipeline -/

/-- The pipeline call sequence of `extract_property_details` (source lines
300-307) under explicit exception semantics: the back-fill and
pool-inference calls carry no handler, so their failures propagate; only the
lease-expiry step is internally guarded. -/
def postProcessExc (fill detect : PropData → Except String PropData)
    (body : PropData → Except String PropData) (d : PropData) :
    Except String PropData := do
  let d ← fill d
  let d ← detect d
  pure (estimateStep body d)

/-- The concrete post-processing pipeline: back-fill, then pool inference,
then lease-expiry estimate, each applied once. -/
def postProcess (d : PropData) : PropData :=
  estimate_lease_expiry_year (detect_pool_info (fill_missing_fields d))

/-! ## Description extraction (free-text body) -/

/-- The GET DESCRIPTION block of the for-rent extractor (source lines
283-298). The input is the list of stripped texts of the
`div.x-read-more_content` elements; when elements exist, every non-empty
paragraph is appended to one newline-joined string which is stripped and
stored in `description`. No other body section is assigned anywhere in
`extract_property_details`. -/
def get_description_for_rent (d : PropData) (paras : List String) : PropData :=
  if paras.isEmpty then d
  else
    { d with description :=
        pyStrip (String.join ((paras.filter (fun p => p ≠ "")).map (fun p => p ++ "\n"))) }

/-- The GET DESCRIPTION block of the for-sale extractor (source lines
260-288): every non-empty paragraph text is appended to the `description`
list. -/
def get_description_for_sale (descList : List String) (paras : List String) : List String :=
  if paras.isEmpty then descList
  else descList ++ paras.filter (fun p => p ≠ "")

/-- The four body sections named by the specification. -/
inductive BodySection where
  | desc | amen | keyInfo | keyFeat
deriving DecidableEq, Repr

/-- The section started by a sentinel paragraph, if it is one. -/
def sentinelSection (p : String) : Option BodySection :=
  if strStartsWith p "WE LOVE" then some .amen
  else if strStartsWith p "KEY INFORMATION" then some .keyInfo
  else if strStartsWith p "Key Features Include" then some .keyFeat
  else none

/-- Modelled from the spec (for comparison only, not from the source): the
claimed partition of the free-text body into description / amenities /
key_information / key_features, switching sections at the sentinel phrases
in document order, with every paragraph before the first sentinel belonging
to description. -/
def claimedPartitionGo :
    BodySection → List String → List String × List String × List String × List String
  | _, [] => ([], [], [], [])
  | sec, p :: rest =>
    match sentinelSection p with
    | some s2 => claimedPartitionGo s2 rest
    | none =>
      let (ds, am, ki, kf) := claimedPartitionGo sec rest
      match sec with
      | .desc => (p :: ds, am, ki, kf)
      | .amen => (ds, p :: am, ki, kf)
      | .keyInfo => (ds, am, p :: ki, kf)
      | .keyFeat => (ds, am, ki, p :: kf)

/-- Modelled from the spec: the claimed section partition of a paragraph
list. -/
def claimedPartition (paras : List String) :
    List String × List String × List String × List String :=
  claimedPartitionGo .desc paras

/-! ## Scroll behaviour -/

/-- One browser scroll command issued through `execute_script`. -/
inductive ScrollAction where
  | toBottom | toTop
deriving DecidableEq, Repr

/-- `BaliExceptionScraper._scroll_to_trigger_loading` (source lines 34-47):
a fixed number of scroll-to-bottom commands with a pause after each, then
one scroll back to top. The document height is never queried. -/
def scroll_to_trigger_loading (scroll_count : Nat) : List ScrollAction :=
  List.replicate scroll_count .toBottom ++ [.toTop]

/-- The scroll phase the discovery loop runs for the lazy-loaded for-rent
category before extracting a page (source line 145: `_scroll_to_trigger_loading(3)`). -/
def discoveryScrollPhase : List ScrollAction :=
  scroll_to_trigger_loading 3

/-- Number of scroll-to-bottom commands in an action list. -/
def countBottom (l : List ScrollAction) : Nat :=
  (l.filter (fun a => a == ScrollAction.toBottom)).length

/-- The while-loop of `BaliExceptionForRentExtractor._scroll_to_bottom`
(source lines 26-42), returning the number of scroll-to-bottom commands
executed. `height q` is the value returned by the `q`-th
`document.body.scrollHeight` query; `last` the previously measured height;
the remaining fuel is `max_scrolls - scroll_count`. -/
def scrollToBottomAux (height : Nat → Nat) : Nat → Nat → Nat → Nat
  | _, _, 0 => 0
  | last, q, fuel + 1 =>
    let nh := height q
    if nh = last then 1
    else 1 + scrollToBottomAux height nh (q + 1) fuel

/-- `_scroll_to_bottom`: measure the initial height, then scroll repeatedly,
stopping when the measured height stops growing or `max_scrolls` scroll
attempts have been made. Returns the number of scrolls executed. -/
def scroll_to_bottom (height : Nat → Nat) (max_scrolls : Nat) : Nat :=
  scrollToBottomAux height (height 0) 1 max_scrolls

/-! ## Error ledger and run statistics -/

/-- One entry of the error ledger (`_add_error`, source lines 49-71); the
wall-clock timestamp is not modelled. -/
structure ErrorEntry where
  error_type : String
  url : Option String
  category : Option String
  error_message : String
deriving DecidableEq, Repr

/-- The counters of `scraping_stats` (source lines 26-32); the start and end
timestamps are not modelled. -/
structure ScrapingStats where
  urls_scraped : Nat
  urls_failed : Nat
  properties_extracted : Nat
deriving DecidableEq, Repr

/-- The mutable observability state of one `BaliExceptionScraper` session. -/
structure ScraperState where
  scraping_errors : List ErrorEntry
  scraping_stats : ScrapingStats
deriving DecidableEq, Repr

/-- The state set up in `__init__` (source lines 24-32). -/
def initialScraperState : ScraperState where
  scraping_errors := []
  scraping_stats := { urls_scraped := 0, urls_failed := 0, properties_extracted := 0 }

/-- `BaliExceptionScraper._add_error`: append an entry and increment
`urls_failed`. -/
def add_error (st : ScraperState) (error_type : String) (url category : Option String)
    (error_message : String) : ScraperState where
  scraping_errors := st.scraping_errors ++
    [{ error_type := error_type, url := url, category := category,
       error_message := error_message }]
  scraping_stats := { st.scraping_stats with urls_failed := st.scraping_stats.urls_failed + 1 }

/-- `_update_stats('url_scraped')`. -/
def markUrlScraped (st : ScraperState) : ScraperState :=
  { st with scraping_stats :=
      { st.scraping_stats with urls_scraped := st.scraping_stats.urls_scraped + 1 } }

/-- `_update_stats('property_extracted')`. -/
def markPropertyExtracted (st : ScraperState) : ScraperState :=
  { st with scraping_stats :=
      { st.scraping_stats with
          properties_extracted := st.scraping_stats.properties_extracted + 1 } }

/-- The `success_rate` of `get_scraping_summary` (source lines 96-99):
`properties_extracted / max(urls_scraped, 1) * 100`. -/
def success_rate (st : ScraperState) : ℚ :=
  (st.scraping_stats.properties_extracted : ℚ) /
    ((max st.scraping_stats.urls_scraped 1 : ℕ) : ℚ) * 100

/-! ## Detail scraper (`scrape_property_details`, source lines 243-331)

One extraction attempt on a detail page either raises (modelled `none`) or
returns a record, possibly with an empty title. The per-URL environment is
an oracle from the attempt index to that outcome. All fallible operations of
an attempt sit inside the per-attempt `except` handler, so the outer
`property_scraping_failed` handler of the source is unreachable and the only
error entry the loop can record is `extraction_failed`. -/

def max_retries : Nat := 3

/-- The retry loop (source lines 265-312): `property_data` keeps the value
of the last attempt that returned (a raising attempt leaves it unchanged),
and the loop breaks as soon as the current value has a non-empty title. -/
def runRetries : Option PropData → List (Option PropData) → Option PropData
  | cur, [] => cur
  | cur, a :: rest =>
    let cur2 := match a with
      | some r => some r
      | none => cur
    match cur2 with
    | some r => if r.title ≠ "" then some r else runRetries (some r) rest
    | none => runRetries none rest

/-- Processing of one URL (source lines 255-327): count the attempt, run the
retries, then either accept the record (counting it) or record an
`extraction_failed` entry. -/
def processUrl (st : ScraperState) (category url : String)
    (attempt : Nat → Option PropData) : ScraperState × Option PropData :=
  let st1 := markUrlScraped st
  match runRetries none ((List.range max_retries).map attempt) with
  | some r =>
    if r.title ≠ "" then (markPropertyExtracted st1, some r)
    else (add_error st1 "extraction_failed" (some url) (some category)
            "No data extracted after retries", none)
  | none => (add_error st1 "extraction_failed" (some url) (some category)
               "No data extracted after retries", none)

/-- `scrape_property_details` over a list of URLs with their per-attempt
oracles: the accepted records in processing order, together with the updated
session state. -/
def scrape_property_details (st : ScraperState) (category : String) :
    List (String × (Nat → Option PropData)) → ScraperState × List PropData
  | [] => (st, [])
  | (url, attempt) :: rest =>
    match processUrl st category url attempt with
    | (st1, some r) =>
      ((scrape_property_details st1 category rest).1,
        r :: (scrape_property_details st1 category rest).2)
    | (st1, none) => scrape_property_details st1 category rest

/-- Number of `extraction_failed` entries in a ledger. -/
def countExtractionFailed (errs : List ErrorEntry) : Nat :=
  (errs.filter (fun e => e.error_type == "extraction_failed")).length

/-! ## Discovery page loop (`scrape_all_urls`, source lines 150-234) -/

/-- The environment facing one iteration of the page loop: either the
iteration fails before URLs are obtained (wait timeout, page-scraping
exception, URL-extraction exception — all increment the failure counter and
advance the page), or it obtains the list of URLs on the page together with
the result of the subsequent next-page navigation (`false` also covers a
navigation exception, both of which break the loop). -/
inductive PageEvent where
  | pageFail
  | page (links : List String) (hasNext : Bool)
deriving DecidableEq, Repr

structure DiscState where
  all_links : List String
  current_page : Nat
  consecutive_failures : Nat
deriving DecidableEq, Repr

/-- The initial loop state (source lines 149-152). -/
def initialDiscState : DiscState where
  all_links := []
  current_page := 1
  consecutive_failures := 0

/-- One iteration of the page loop body (source lines 154-231). The returned
Boolean is `false` when the body breaks out of the loop. -/
def stepPage (s : DiscState) : PageEvent → DiscState × Bool
  | .pageFail =>
    ({ s with consecutive_failures := s.consecutive_failures + 1,
              current_page := s.current_page + 1 }, true)
  | .page links hasNext =>
    if links.isEmpty then
      let cf := s.consecutive_failures + 1
      if 2 ≤ cf then ({ s with consecutive_failures := cf }, false)
      else if hasNext then
        ({ s with consecutive_failures := cf, current_page := s.current_page + 1 }, true)
      else ({ s with consecutive_failures := cf }, false)
    else
      let newLinks := links.filter (fun l => ¬ s.all_links.contains l)
      let all := s.all_links ++ newLinks
      if hasNext then
        ({ all_links := all, current_page := s.current_page + 1,
           consecutive_failures := 0 }, true)
      else
        ({ all_links := all, current_page := s.current_page,
           consecutive_failures := 0 }, false)

/-- The `while consecutive_failures < max_consecutive_failures` loop, driven
by the trace of page events the environment supplies. -/
def runLoop (s : DiscState) : List PageEvent → DiscState
  | [] => s
  | e :: es =>
    if s.consecutive_failures < 3 then
      let (s2, cont) := stepPage s e
      if cont then runLoop s2 es else s2
    else s

/-- Number of loop iterations whose body executes on a given event trace. -/
def runLoopCount (s : DiscState) : List PageEvent → Nat
  | [] => 0
  | e :: es =>
    if s.consecutive_failures < 3 then
      let (s2, cont) := stepPage s e
      if cont then 1 + runLoopCount s2 es else 1
    else 0

/-! ## The `/scrape` request handler
(`scrape_bali_exception_properties`, `app/api/routes/bali_exception.py`
lines 67-165) -/

/-- A raised Python exception, as far as the handler distinguishes them. -/
inductive PyExc where
  | http (status : Nat) (detail : String)
  | other (msg : String)
deriving DecidableEq, Repr

/-- Python `str(e)` on an exception; `starlette.exceptions.HTTPException`
renders as `"<status>: <detail>"`. -/
def strOfExc : PyExc → String
  | .http s d => toString s ++ ": " ++ d
  | .other m => m

/-- The final outcome of the route: a successful JSON response or an HTTP
error response with a status code and detail string. -/
inductive ApiOutcome (α : Type) where
  | success (resp : α)
  | failure (status : Nat) (detail : String)
deriving DecidableEq, Repr

def valid_categories : List String := ["for-sale", "for-rent"]

/-- Python repr of a list of strings, as interpolated into the error detail
f-string. -/
def pyReprStrList (l : List String) : String :=
  "[" ++ String.intercalate ", " (l.map (fun s => "\x27" ++ s ++ "\x27")) ++ "]"

/-- `scrape_bali_exception_properties` (source lines 67-165). `body`
abstracts everything from line 90 on (acquiring the browser session and
scraping); the returned Boolean records whether the browser session was
acquired, i.e. whether `body` was invoked. The category validation raises
`HTTPException(400, ...)` inside the handler-wide `try`, and the
`except Exception` clause at lines 163-165 catches every exception —
including that `HTTPException` — and re-raises `HTTPException(500, str(e))`. -/
def scrape_bali_exception_properties {α : Type}
    (categories : List String) (body : Unit → Except PyExc α) :
    ApiOutcome α × Bool :=
  let invalid := categories.filter (fun c => ¬ valid_categories.contains c)
  let inner : Except PyExc α × Bool :=
    if invalid.isEmpty then (body (), true)
    else
      (Except.error (.http 400 ("Invalid categories: " ++ pyReprStrList invalid ++
        ". Valid options: " ++ pyReprStrList valid_categories)), false)
  match inner with
  | (.ok r, acquired) => (.success r, acquired)
  | (.error e, acquired) => (.failure 500 (strOfExc e), acquired)

/-- The observability states one scraper session can reach: the initial
state of `__init__`; the state right after the `url_scraped` bump at the top
of the per-URL loop; the state after a full per-URL processing step; and the
state after any `_add_error` call made elsewhere in the session
(discovery-loop error paths touch only the ledger and `urls_failed`). -/
inductive ReachableState : ScraperState → Prop where
  | init : ReachableState initialScraperState
  | mark {st : ScraperState} : ReachableState st → ReachableState (markUrlScraped st)
  | urlOutcome {st : ScraperState} (category url : String)
      (attempt : Nat → Option PropData) :
      ReachableState st → ReachableState (processUrl st category url attempt).1
  | ledger {st : ScraperState} (t : String) (u c : Option String) (m : String) :
      ReachableState st → ReachableState (add_error st t u c m)

/-! ## Helper lemmas: the back-fill loop as a simultaneous field update -/

lemma fill_property_ID_eq (d : PropData) :
    fill_property_ID d = { d with property_ID :=
      if d.property_ID = "" then dictGet d.features "Property ID" else d.property_ID } := by
  by_cases h : d.property_ID = "" <;> simp [fill_property_ID, h]

lemma fill_bedrooms_eq (d : PropData) :
    fill_bedrooms d = { d with bedrooms :=
      (if pyZero d.bedrooms then extract_number (dictGet d.features "Bedroom") else d.bedrooms) } := by
  by_cases h : pyZero d.bedrooms = true <;> simp [fill_bedrooms, h]

lemma fill_bathrooms_eq (d : PropData) :
    fill_bathrooms d = { d with bathrooms :=
      (if pyZero d.bathrooms then extract_number (dictGet d.features "Bathroom") else d.bathrooms) } := by
  by_cases h : pyZero d.bathrooms = true <;> simp [fill_bathrooms, h]

lemma fill_land_size_eq (d : PropData) :
    fill_land_size d = { d with land_size_sqm :=
      (if pyZero d.land_size_sqm then extract_number (dictGet d.features "Land Area")
        else d.land_size_sqm) } := by
  by_cases h : pyZero d.land_size_sqm = true <;> simp [fill_land_size, h]

lemma fill_building_size_eq (d : PropData) :
    fill_building_size d = { d with building_size_sqm :=
      (if pyZero d.building_size_sqm then extract_number (dictGet d.features "Property Size")
        else d.building_size_sqm) } := by
  by_cases h : pyZero d.building_size_sqm = true <;> simp [fill_building_size, h]

lemma fill_furnish_eq (d : PropData) :
    fill_furnish d = { d with furnish :=
      if d.furnish = "" then dictGet d.features "Furnish" else d.furnish } := by
  by_cases h : d.furnish = "" <;> simp [fill_furnish, h]

lemma fill_lease_duration_eq (d : PropData) :
    fill_lease_duration d = { d with lease_duration :=
      (if pyZero d.lease_duration then leaseCoerce (dictGet d.features "Leasehold")
        else d.lease_duration) } := by
  by_cases h : pyZero d.lease_duration = true <;> simp [fill_lease_duration, h]

lemma fill_year_built_eq (d : PropData) :
    fill_year_built d = { d with year_built :=
      (if pyZero d.year_built then extract_number (dictGet d.features "Year Built")
        else d.year_built) } := by
  by_cases h : pyZero d.year_built = true <;> simp [fill_year_built, h]

lemma fill_status_eq (d : PropData) :
    fill_status d = { d with status :=
      if d.status = "" then dictGet d.features "Status" else d.status } := by
  by_cases h : d.status = "" <;> simp [fill_status, h]

lemma fill_type_eq (d : PropData) :
    fill_type d = { d with type :=
      if d.type = "" then dictGet d.features "Type" else d.type } := by
  by_cases h : d.type = "" <;> simp [fill_type, h]

lemma fill_location_eq (d : PropData) :
    fill_location d = { d with location :=
      if d.location = "" then dictGet d.features "Area" else d.location } := by
  by_cases h : d.location = "" <;> simp [fill_location, h]

lemma fill_listing_status_eq (d : PropData) :
    fill_listing_status d = { d with listing_status :=
      if d.listing_status = "" then dictGet d.features "Label" else d.listing_status } := by
  by_cases h : d.listing_status = "" <;> simp [fill_listing_status, h]

lemma fill_pool_size_eq (d : PropData) :
    fill_pool_size d = { d with pool_size :=
      (if pyZero d.pool_size then extract_number (dictGet d.features "Pool Size")
        else d.pool_size) } := by
  by_cases h : pyZero d.pool_size = true <;> simp [fill_pool_size, h]

/-- The whole back-fill loop as one simultaneous update: every condition and
every looked-up value only depends on the original record, because each
iteration touches a distinct field and never touches `features`. -/
lemma fill_missing_fields_eq (d : PropData) :
    fill_missing_fields d = { d with
      property_ID :=
        if d.property_ID = "" then dictGet d.features "Property ID" else d.property_ID,
      bedrooms :=
        (if pyZero d.bedrooms then extract_number (dictGet d.features "Bedroom") else d.bedrooms),
      bathrooms :=
        (if pyZero d.bathrooms then extract_number (dictGet d.features "Bathroom") else d.bathrooms),
      land_size_sqm :=
        (if pyZero d.land_size_sqm then extract_number (dictGet d.features "Land Area")
          else d.land_size_sqm),
      building_size_sqm :=
        (if pyZero d.building_size_sqm then extract_number (dictGet d.features "Property Size")
          else d.building_size_sqm),
      furnish := if d.furnish = "" then dictGet d.features "Furnish" else d.furnish,
      lease_duration :=
        (if pyZero d.lease_duration then leaseCoerce (dictGet d.features "Leasehold")
          else d.lease_duration),
      year_built :=
        (if pyZero d.year_built then extract_number (dictGet d.features "Year Built")
          else d.year_built),
      status := if d.status = "" then dictGet d.features "Status" else d.status,
      type := if d.type = "" then dictGet d.features "Type" else d.type,
      location := if d.location = "" then dictGet d.features "Area" else d.location,
      listing_status :=
        if d.listing_status = "" then dictGet d.features "Label" else d.listing_status,
      pool_size :=
        (if pyZero d.pool_size then extract_number (dictGet d.features "Pool Size")
          else d.pool_size) } := by
  unfold fill_missing_fields
  rw [fill_property_ID_eq, fill_bedrooms_eq, fill_bathrooms_eq, fill_land_size_eq,
    fill_building_size_eq, fill_furnish_eq, fill_lease_duration_eq, fill_year_built_eq,
    fill_status_eq, fill_type_eq, fill_location_eq, fill_listing_status_eq,
    fill_pool_size_eq]

/-! ## Claim theorems -/

/-- Claim C5: in post-processing back-fill, every field of the fixed
label-to-field mapping that still holds its default (empty string or zero)
is coerced from the raw `features` entry; numeric fields take the first
number in the string (an integer unless a decimal point is present, commas
removed first); the lease-duration field first takes the first
whitespace-delimited token of the raw value; and
`extract_number "42 m²" = 42`, `extract_number "1,234.5 sqm" = 1234.5`. -/
theorem backfill_coerces_defaulted_fields (d : PropData) :
    ((fill_missing_fields d).property_ID =
      if d.property_ID = "" then dictGet d.features "Property ID" else d.property_ID) ∧
    ((fill_missing_fields d).bedrooms =
      if pyZero d.bedrooms then extract_number (dictGet d.features "Bedroom") else d.bedrooms) ∧
    ((fill_missing_fields d).bathrooms =
      if pyZero d.bathrooms then extract_number (dictGet d.features "Bathroom") else d.bathrooms) ∧
    ((fill_missing_fields d).land_size_sqm =
      if pyZero d.land_size_sqm then extract_number (dictGet d.features "Land Area")
      else d.land_size_sqm) ∧
    ((fill_missing_fields d).building_size_sqm =
      if pyZero d.building_size_sqm then extract_number (dictGet d.features "Property Size")
      else d.building_size_sqm) ∧
    ((fill_missing_fields d).furnish =
      if d.furnish = "" then dictGet d.features "Furnish" else d.furnish) ∧
    ((fill_missing_fields d).lease_duration =
      if pyZero d.lease_duration then
        (match pySplit (dictGet d.features "Leasehold") with
          | [] => PyNum.int 0
          | w :: _ => extract_number w)
      else d.lease_duration) ∧
    ((fill_missing_fields d).year_built =
      if pyZero d.year_built then extract_number (dictGet d.features "Year Built")
      else d.year_built) ∧
    ((fill_missing_fields d).status =
      if d.status = "" then dictGet d.features "Status" else d.status) ∧
    ((fill_missing_fields d).type =
      if d.type = "" then dictGet d.features "Type" else d.type) ∧
    ((fill_missing_fields d).location =
      if d.location = "" then dictGet d.features "Area" else d.location) ∧
    ((fill_missing_fields d).listing_status =
      if d.listing_status = "" then dictGet d.features "Label" else d.listing_status) ∧
    ((fill_missing_fields d).pool_size =
      if pyZero d.pool_size then extract_number (dictGet d.features "Pool Size")
      else d.pool_size) ∧
    ((fill_missing_fields d).features = d.features) ∧
    extract_number "42 m²" = PyNum.int 42 ∧
    extract_number "1,234.5 sqm" = PyNum.float (1234.5 : ℚ) := by
  rw [fill_missing_fields_eq]
  refine ⟨rfl, rfl, rfl, rfl, rfl, rfl, rfl, rfl, rfl, rfl, rfl, rfl, rfl, rfl,
    by decide, ?_⟩
  have h1 : extract_number "1,234.5 sqm" =
      PyNum.float ((1234 : ℚ) + (5 : ℚ) / (10 : ℚ) ^ 1) := rfl
  rw [h1]
  norm_num

/-- Claim C6: pool inference scans the lower-cased space-joined text of
`description`, `key_information`, `key_features` and `amenities`;
`pool` is set exactly when one of the pool keywords occurs in it, and
`pool_type` is the title-cased first keyword of the priority list that
occurs, defaulting to the empty string; the record with description
"Enjoy the private plunge pool" yields `pool = true`,
`pool_type = "Private"`. -/
theorem pool_inference_spec (d : PropData) :
    ((detect_pool_info d).pool = true ↔
      ∃ kw ∈ pool_keywords, strContains (allText d) kw = true) ∧
    ((detect_pool_info d).pool_type =
      ((pool_types.find? (fun ty => strContains (allText d) ty)).map pyTitle).getD "") ∧
    (detect_pool_info
      { emptyPropData "u" with description := "Enjoy the private plunge pool" }).pool = true ∧
    (detect_pool_info
      { emptyPropData "u" with description := "Enjoy the private plunge pool" }).pool_type
      = "Private" := by
  refine ⟨?_, ?_, by decide, by decide⟩
  · simp [detect_pool_info, List.any_eq_true]
  · rcases h : pool_types.find? (fun ty => strContains (allText d) ty) with _ | t
    · simp only [detect_pool_info, h]
      simp
    · have ht : t ∈ pool_types := List.mem_of_find?_eq_some h
      have hne : t ≠ "" := by fin_cases ht <;> decide
      simp only [detect_pool_info, h]
      simp [hne]

/-! ## Helper lemmas: detail scraper, statistics, scrolling -/

/-- Each URL processed by the detail scraper ends in exactly one of two
ways: an accepted record with a non-empty title (counted in
`properties_extracted`), or one `extraction_failed` ledger entry. -/
lemma processUrl_accept_or_fail (st : ScraperState) (category url : String)
    (attempt : Nat → Option PropData) :
    (∃ r, processUrl st category url attempt =
        (markPropertyExtracted (markUrlScraped st), some r) ∧ r.title ≠ "") ∨
    processUrl st category url attempt =
      (add_error (markUrlScraped st) "extraction_failed" (some url) (some category)
        "No data extracted after retries", none) := by
  unfold processUrl
  rcases hr : runRetries none ((List.range max_retries).map attempt) with _ | r
  · right
    simp
  · by_cases ht : r.title = ""
    · right
      simp [ht]
    · left
      exact ⟨r, by simp [ht], ht⟩

lemma countEF_add_error_ef (st : ScraperState) (u c : Option String) (m : String) :
    countExtractionFailed (add_error st "extraction_failed" u c m).scraping_errors =
      countExtractionFailed st.scraping_errors + 1 := by
  simp [add_error, countExtractionFailed, List.filter_append]

lemma scrollToBottomAux_le (height : Nat → Nat) (last q fuel : Nat) :
    scrollToBottomAux height last q fuel ≤ fuel := by
  induction fuel generalizing last q with
  | zero => simp [scrollToBottomAux]
  | succ k ih =>
    simp only [scrollToBottomAux]
    split
    · omega
    · have := ih (height q) (q + 1)
      omega

lemma countBottom_replicate (n : Nat) :
    countBottom (List.replicate n ScrollAction.toBottom) = n := by
  induction n with
  | zero => rfl
  | succ k ih =>
    simp only [countBottom, List.replicate_succ, List.filter_cons] at *
    simp only [show (ScrollAction.toBottom == ScrollAction.toBottom) = true from rfl,
      if_true, List.length_cons]
    omega

lemma countBottom_append (a b : List ScrollAction) :
    countBottom (a ++ b) = countBottom a + countBottom b := by
  simp [countBottom, List.filter_append]

/-- Invariant of every reachable observability state: the number of
accepted properties never exceeds the number of attempted URLs. -/
lemma reachable_extracted_le_scraped {st : ScraperState} (h : ReachableState st) :
    st.scraping_stats.properties_extracted ≤ st.scraping_stats.urls_scraped := by
  induction h with
  | init => exact Nat.le_refl 0
  | mark _ ih =>
    simp only [markUrlScraped]
    omega
  | urlOutcome category url attempt _ ih =>
    rcases processUrl_accept_or_fail _ category url attempt with ⟨r, hpr, _⟩ | hpr <;>
      rw [hpr] <;>
      simp only [markPropertyExtracted, markUrlScraped, add_error] <;>
      omega
  | ledger t u c m _ ih =>
    simpa [add_error] using ih

/-- Claim C1: for every input URL list, the detail scraper returns only
usable records (non-empty title), and the number of returned records plus
the number of `extraction_failed` entries recorded during the run equals the
number of input URLs. -/
theorem detail_scraper_accounting (st : ScraperState) (category : String)
    (inputs : List (String × (Nat → Option PropData))) :
    (∀ r ∈ (scrape_property_details st category inputs).2, r.title ≠ "") ∧
    (scrape_property_details st category inputs).2.length +
        countExtractionFailed (scrape_property_details st category inputs).1.scraping_errors =
      inputs.length + countExtractionFailed st.scraping_errors := by
  induction inputs generalizing st with
  | nil => simp [scrape_property_details]
  | cons x rest ih =>
    obtain ⟨url, attempt⟩ := x
    rcases processUrl_accept_or_fail st category url attempt with ⟨r, hpr, hrt⟩ | hpr
    · obtain ⟨ihA, ihB⟩ := ih (markPropertyExtracted (markUrlScraped st))
      have hEF : countExtractionFailed
            (markPropertyExtracted (markUrlScraped st)).scraping_errors =
          countExtractionFailed st.scraping_errors := rfl
      simp only [scrape_property_details, hpr]
      refine ⟨?_, ?_⟩
      · intro r2 hr2
        rcases List.mem_cons.mp hr2 with rfl | h2
        · exact hrt
        · exact ihA r2 h2
      · simp only [List.length_cons]
        omega
    · obtain ⟨ihA, ihB⟩ := ih (add_error (markUrlScraped st) "extraction_failed"
        (some url) (some category) "No data extracted after retries")
      have hEF := countEF_add_error_ef (markUrlScraped st)
        (some url) (some category) "No data extracted after retries"
      have hEF2 : countExtractionFailed (markUrlScraped st).scraping_errors =
          countExtractionFailed st.scraping_errors := rfl
      simp only [scrape_property_details, hpr]
      refine ⟨ihA, ?_⟩
      simp only [List.length_cons]
      omega

/-- Claim C1 witness: a two-URL run (one usable record, one URL that never
yields a title) accepts exactly one record, records exactly one
`extraction_failed` entry, and the accepted record has a non-empty title. -/
theorem detail_scraper_accounting_witness :
    ({ emptyPropData "u1" with title := "Villa X" } : PropData).title ≠ "" ∧
    (scrape_property_details initialScraperState "for-rent"
        [("u1", fun _ => some { emptyPropData "u1" with title := "Villa X" }),
         ("u2", fun _ => none)]).2.length +
      countExtractionFailed (scrape_property_details initialScraperState "for-rent"
        [("u1", fun _ => some { emptyPropData "u1" with title := "Villa X" }),
         ("u2", fun _ => none)]).1.scraping_errors =
      2 + countExtractionFailed initialScraperState.scraping_errors :=
  ⟨(detail_scraper_accounting initialScraperState "for-rent"
      [("u1", fun _ => some { emptyPropData "u1" with title := "Villa X" }),
       ("u2", fun _ => none)]).1 _ (by decide),
   (detail_scraper_accounting initialScraperState "for-rent"
      [("u1", fun _ => some { emptyPropData "u1" with title := "Villa X" }),
       ("u2", fun _ => none)]).2⟩

/-- Claim C2 counterexample: a page whose extraction returns only URLs that
are already in the accumulated set yields zero new URLs, yet the
consecutive-failure counter is reset to 0, not incremented. Starting from
the initial state, page 1 and page 2 both return the single URL "u": after
the first iteration the state is `⟨["u"], 2, 0⟩`, every link of the second
page is already known (zero new URLs), and after the second iteration the
counter is 0. -/
theorem discovery_duplicate_page_not_counted_cex :
    runLoop initialDiscState [PageEvent.page ["u"] true, PageEvent.page ["u"] true] =
      { all_links := ["u"], current_page := 3, consecutive_failures := 0 } ∧
    (stepPage initialDiscState (PageEvent.page ["u"] true)).1 =
      { all_links := ["u"], current_page := 2, consecutive_failures := 0 } ∧
    (["u"] : List String).all
      (fun l => ({ all_links := ["u"], current_page := 2, consecutive_failures := 0 } :
        DiscState).all_links.contains l) = true ∧
    (stepPage { all_links := ["u"], current_page := 2, consecutive_failures := 0 }
        (PageEvent.page ["u"] true)).1.consecutive_failures = 0 := by
  decide

/-- Claim C2 (amended): a page from which zero URLs are extracted increments
the consecutive-failure counter, and a second consecutive strike (counter
already ≥ 1) makes the empty page end the loop immediately; an extraction
returning a non-empty URL list resets the counter to zero (even when every
URL is a duplicate); a page-level failure increments the counter; and the
loop executes no further iteration once the counter has reached 3. -/
theorem discovery_failure_budget (s : DiscState) (links : List String) (hasNext : Bool)
    (es : List PageEvent) :
    (links = [] →
      (stepPage s (PageEvent.page links hasNext)).1.consecutive_failures =
        s.consecutive_failures + 1 ∧
      (1 ≤ s.consecutive_failures →
        (stepPage s (PageEvent.page links hasNext)).2 = false)) ∧
    (links ≠ [] →
      (stepPage s (PageEvent.page links hasNext)).1.consecutive_failures = 0) ∧
    ((stepPage s PageEvent.pageFail).1.consecutive_failures = s.consecutive_failures + 1) ∧
    (3 ≤ s.consecutive_failures → runLoop s es = s ∧ runLoopCount s es = 0) := by
  refine ⟨fun h => ⟨?_, fun h1 => ?_⟩, fun h => ?_, rfl, fun h => ?_⟩
  · subst h
    simp only [stepPage, List.isEmpty_nil, if_true]
    split
    · rfl
    · split <;> rfl
  · subst h
    have h2 : 2 ≤ s.consecutive_failures + 1 := by omega
    simp [stepPage, h2]
  · have hne : links.isEmpty = false := by
      cases links with
      | nil => exact absurd rfl h
      | cons a l => rfl
    simp only [stepPage, hne, Bool.false_eq_true, if_false]
    split <;> rfl
  · have hlt : ¬ s.consecutive_failures < 3 := by omega
    cases es with
    | nil => exact ⟨rfl, rfl⟩
    | cons e es2 => exact ⟨by simp [runLoop, hlt], by simp [runLoopCount, hlt]⟩

/-- Claim C2 witness: concrete instances for each guarded part of the
failure-budget theorem. -/
theorem discovery_failure_budget_witness :
    (stepPage { all_links := [], current_page := 1, consecutive_failures := 3 }
        (PageEvent.page [] true)).1.consecutive_failures = 3 + 1 ∧
    (stepPage { all_links := [], current_page := 1, consecutive_failures := 3 }
        (PageEvent.page [] true)).2 = false ∧
    (stepPage { all_links := [], current_page := 1, consecutive_failures := 0 }
        (PageEvent.page ["u"] true)).1.consecutive_failures = 0 ∧
    runLoop { all_links := [], current_page := 1, consecutive_failures := 3 }
        [PageEvent.pageFail] =
      { all_links := [], current_page := 1, consecutive_failures := 3 } :=
  ⟨((discovery_failure_budget
      { all_links := [], current_page := 1, consecutive_failures := 3 }
      [] true [PageEvent.pageFail]).1 rfl).1,
   ((discovery_failure_budget
      { all_links := [], current_page := 1, consecutive_failures := 3 }
      [] true [PageEvent.pageFail]).1 rfl).2 (by decide),
   (discovery_failure_budget
      { all_links := [], current_page := 1, consecutive_failures := 0 }
      ["u"] true []).2.1 (by decide),
   ((discovery_failure_budget
      { all_links := [], current_page := 1, consecutive_failures := 3 }
      [] true [PageEvent.pageFail]).2.2.2 (by decide)).1⟩

/-- Claim C3: a scrape request naming a category outside
{for-sale, for-rent} is rejected before any browser session is acquired and
the error detail names the invalid category and the valid set — but the
response is a 500, not a 400: the handler-wide `except Exception` catches
the `HTTPException(400, ...)` raised by the validation and re-raises it as
`HTTPException(500, str(e))`. -/
theorem invalid_category_scrape_returns_500 {α : Type} (body : Unit → Except PyExc α) :
    (scrape_bali_exception_properties ["for-sale", "bogus"] body).2 = false ∧
    (scrape_bali_exception_properties ["for-sale", "bogus"] body).1 =
      ApiOutcome.failure 500
        "400: Invalid categories: [\x27bogus\x27]. Valid options: [\x27for-sale\x27, \x27for-rent\x27]" ∧
    strContains
      "400: Invalid categories: [\x27bogus\x27]. Valid options: [\x27for-sale\x27, \x27for-rent\x27]"
      "bogus" = true ∧
    strContains
      "400: Invalid categories: [\x27bogus\x27]. Valid options: [\x27for-sale\x27, \x27for-rent\x27]"
      "for-rent" = true ∧
    (500 : Nat) ≠ 400 := by
  exact ⟨rfl, rfl, by decide, by decide, by decide⟩

/-- Claim C4 counterexample: the for-rent detail extractor does not
partition the body at the "KEY INFORMATION" sentinel: all three paragraphs
land in `description` and `key_information` stays empty, while the claimed
partition puts the paragraph after the sentinel into `key_information`. -/
theorem body_sections_not_partitioned_cex :
    (get_description_for_rent (emptyPropData "u")
        ["A lovely villa.", "KEY INFORMATION", "Leasehold 25 years"]).description =
      "A lovely villa.\nKEY INFORMATION\nLeasehold 25 years" ∧
    (get_description_for_rent (emptyPropData "u")
        ["A lovely villa.", "KEY INFORMATION", "Leasehold 25 years"]).key_information = [] ∧
    (get_description_for_rent (emptyPropData "u")
        ["A lovely villa.", "KEY INFORMATION", "Leasehold 25 years"]).amenities = [] ∧
    (get_description_for_rent (emptyPropData "u")
        ["A lovely villa.", "KEY INFORMATION", "Leasehold 25 years"]).key_features = [] ∧
    (claimedPartition ["A lovely villa.", "KEY INFORMATION", "Leasehold 25 years"]).1 =
      ["A lovely villa."] ∧
    (claimedPartition ["A lovely villa.", "KEY INFORMATION", "Leasehold 25 years"]).2.2.1 =
      ["Leasehold 25 years"] ∧
    (get_description_for_rent (emptyPropData "u")
        ["A lovely villa.", "KEY INFORMATION", "Leasehold 25 years"]).key_information ≠
      (claimedPartition ["A lovely villa.", "KEY INFORMATION", "Leasehold 25 years"]).2.2.1 := by
  decide

/-- Claim C4 (amended): `extract_property_details` performs no
sentinel-based partitioning of the body: every non-empty paragraph is
concatenated into `description` (newline-joined and stripped for for-rent;
appended to the description list for for-sale), and `amenities`,
`key_information` and `key_features` are never assigned, keeping their
defaults. -/
theorem body_paragraphs_all_join_description (d : PropData)
    (paras descList : List String) :
    ((get_description_for_rent d paras).description =
      if paras.isEmpty then d.description
      else pyStrip (String.join ((paras.filter (fun p => p ≠ "")).map (fun p => p ++ "\n")))) ∧
    ((get_description_for_rent d paras).amenities = d.amenities) ∧
    ((get_description_for_rent d paras).key_information = d.key_information) ∧
    ((get_description_for_rent d paras).key_features = d.key_features) ∧
    (get_description_for_sale descList paras =
      if paras.isEmpty then descList else descList ++ paras.filter (fun p => p ≠ "")) := by
  unfold get_description_for_rent get_description_for_sale
  by_cases h : paras.isEmpty <;> simp [h]

/-- Claim C7 counterexample: in the post-processing call sequence a failure
raised inside the first (back-fill) step propagates out of the pipeline, so
the pool-inference and lease-expiry steps never run: with a failing
back-fill the pipeline result is the bare exception, not a record. -/
theorem post_process_fill_failure_blocks_rest :
    postProcessExc (fun _ => Except.error "backfill boom")
        (fun d => Except.ok { d with pool := true })
        (fun d => Except.ok (estimateBody d))
        (emptyPropData "u") = Except.error "backfill boom" := rfl

/-- Claim C7 (amended): the pipeline is applied exactly once per record in
the fixed order back-fill → pool inference → lease-expiry estimate, but only
the lease-expiry step is internally fault-tolerant: an exception inside its
body is caught, setting `lease_expiry_year = 0` and still returning the
record, whereas the back-fill and pool-inference calls carry no handler. -/
theorem post_process_fixed_order_with_guarded_lease (d : PropData)
    (body : PropData → Except String PropData) (e : String) :
    (postProcessExc (fun x => Except.ok (fill_missing_fields x))
        (fun x => Except.ok (detect_pool_info x))
        (fun x => Except.ok (estimateBody x)) d = Except.ok (postProcess d)) ∧
    (body d = Except.error e →
      estimateStep body d = { d with lease_expiry_year := PyNum.int 0 }) := by
  refine ⟨rfl, fun h => ?_⟩
  simp [estimateStep, h]

/-- Claim C7 witness: the ordered pipeline on the default record, and the
lease-expiry guard catching a concrete failing body. -/
theorem post_process_fixed_order_witness :
    postProcessExc (fun x => Except.ok (fill_missing_fields x))
        (fun x => Except.ok (detect_pool_info x))
        (fun x => Except.ok (estimateBody x)) (emptyPropData "u")
      = Except.ok (postProcess (emptyPropData "u")) ∧
    estimateStep (fun _ => Except.error "lease boom") (emptyPropData "u") =
      { emptyPropData "u" with lease_expiry_year := PyNum.int 0 } :=
  ⟨(post_process_fixed_order_with_guarded_lease (emptyPropData "u")
      (fun _ => Except.error "lease boom") "lease boom").1,
   (post_process_fixed_order_with_guarded_lease (emptyPropData "u")
      (fun _ => Except.error "lease boom") "lease boom").2 rfl⟩

/-- Claim C8 counterexample: the discovery loop scroll phase for for-rent is
`_scroll_to_trigger_loading(3)`, which issues exactly 3 bottom-scrolls no
matter what the document does; on a document whose measured height never
grows, a loop that stops when the height stops growing
(`_scroll_to_bottom`) issues only 1. -/
theorem discovery_scroll_fixed_count_cex :
    countBottom discoveryScrollPhase = 3 ∧
    scroll_to_bottom (fun _ => 500) 100 = 1 ∧
    countBottom discoveryScrollPhase ≠ scroll_to_bottom (fun _ => 500) 100 := by
  decide

/-- Claim C8 (amended): the pre-extraction scroll phase of the discovery
loop performs a fixed number of bottom-scrolls (with a pause after each)
followed by a scroll back to top, independent of any height measurement;
the height-measuring bounded scroll loop — stop when the measured height
stops growing, or after `max_scrolls` attempts — exists only in the for-rent
extractor standalone workflow (`_scroll_to_bottom`). -/
theorem discovery_scroll_phase_behaviour (n max_scrolls last q fuel : Nat)
    (height : Nat → Nat) :
    scroll_to_trigger_loading n =
      List.replicate n ScrollAction.toBottom ++ [ScrollAction.toTop] ∧
    countBottom (scroll_to_trigger_loading n) = n ∧
    scroll_to_bottom height max_scrolls ≤ max_scrolls ∧
    (height q = last → scrollToBottomAux height last q (fuel + 1) = 1) := by
  refine ⟨rfl, ?_, ?_, fun h => ?_⟩
  · rw [scroll_to_trigger_loading, countBottom_append, countBottom_replicate]
    rfl
  · exact scrollToBottomAux_le height (height 0) 1 max_scrolls
  · simp [scrollToBottomAux, h]

/-- Claim C8 witness: a constant-height document makes the height-measuring
loop stop after one scroll, and the loop never exceeds its attempt bound. -/
theorem discovery_scroll_phase_behaviour_witness :
    scrollToBottomAux (fun _ => 500) 500 1 100 = 1 ∧
    scroll_to_bottom (fun _ => 500) 100 ≤ 100 :=
  ⟨(discovery_scroll_phase_behaviour 3 100 500 1 99 (fun _ => 500)).2.2.2 rfl,
   (discovery_scroll_phase_behaviour 3 100 500 1 99 (fun _ => 500)).2.2.1⟩

/-- Claim C9: in every reachable state of a scraper session,
`success_rate = properties_extracted / max(urls_scraped, 1) * 100` lies in
[0, 100], and in the zero-attempts state it equals 0. -/
theorem success_rate_bounded (st : ScraperState) (h : ReachableState st) :
    0 ≤ success_rate st ∧ success_rate st ≤ 100 ∧
      (st.scraping_stats.urls_scraped = 0 → success_rate st = 0) := by
  have hle := reachable_extracted_le_scraped h
  refine ⟨?_, ?_, fun hu => ?_⟩
  · unfold success_rate
    positivity
  · unfold success_rate
    have hnat : st.scraping_stats.properties_extracted ≤
        max st.scraping_stats.urls_scraped 1 :=
      le_trans hle (le_max_left _ _)
    have h1 : (st.scraping_stats.properties_extracted : ℚ) ≤
        ((max st.scraping_stats.urls_scraped 1 : ℕ) : ℚ) := by
      exact_mod_cast hnat
    have h2 : (0 : ℚ) < ((max st.scraping_stats.urls_scraped 1 : ℕ) : ℚ) := by
      have : (1 : ℕ) ≤ max st.scraping_stats.urls_scraped 1 := le_max_right _ _
      have : (0 : ℕ) < max st.scraping_stats.urls_scraped 1 := this
      exact_mod_cast this
    calc (st.scraping_stats.properties_extracted : ℚ) /
          ((max st.scraping_stats.urls_scraped 1 : ℕ) : ℚ) * 100
        ≤ 1 * 100 := by
          have := (div_le_one h2).mpr h1
          nlinarith
      _ = 100 := by norm_num
  · have hp : st.scraping_stats.properties_extracted = 0 := by omega
    simp [success_rate, hu, hp]

/-- Claim C9 witness: the initial (zero-attempts) session state is
reachable and its success rate is exactly 0, inside [0, 100]. -/
theorem success_rate_bounded_witness :
    0 ≤ success_rate initialScraperState ∧ success_rate initialScraperState ≤ 100 ∧
      success_rate initialScraperState = 0 :=
  ⟨(success_rate_bounded initialScraperState ReachableState.init).1,
   (success_rate_bounded initialScraperState ReachableState.init).2.1,
   (success_rate_bounded initialScraperState ReachableState.init).2.2 rfl⟩

/-- Claim C10: after pool inference, `pool_type` can be non-empty while
`pool` is false: a record whose description contains "private" but no
pool-presence keyword yields `pool = false` together with
`pool_type = "Private"`. -/
theorem pool_type_without_pool_presence :
    (detect_pool_info { emptyPropData "u" with description := "A private residence" }).pool
      = false ∧
    (detect_pool_info { emptyPropData "u" with description := "A private residence" }).pool_type
      = "Private" := by
  decide

end Scraping
